import Mathlib

/-!
Formal model of the ACRN skl-virtio audio virtualization drivers
(sound/soc/intel/skylake/virtio/skl-virtio-be.c and skl-virtio-fe.c).

Pure-functional shallow embedding: kernel list heads become Lean lists,
stateful handlers become explicit state-passing functions, and results of
external collaborators (ALSA substream ops, virtqueue primitives, guest
address translation) are supplied as explicit parameters.  Error codes are
the negated errno values used by the source.
-/

namespace SklVirtio

/-- errno EINVAL (invalid argument, used by the source for size mismatch). -/
def EINVAL : Int := 22

/-- errno EBUSY (stream already in use). -/
def EBUSY : Int := 16

/-- errno EACCES (cross-domain access denied). -/
def EACCES : Int := 13

/-- errno ENODEV (no such PCM / no such active substream session). -/
def ENODEV : Int := 19

/-- errno ETIMEDOUT (backend response deadline exceeded). -/
def ETIMEDOUT : Int := 110

/-- errno EBADF (resource not found in vbe_find_res_hndl callers). -/
def EBADF : Int := 9

/-- The shared-memory position descriptor (struct vfe_stream_pos_desc):
hw_ptr is the hardware frame position, be_irq_cnt the backend interrupt
counter, fe_irq_cnt the last counter value consumed by the frontend. -/
structure PosDesc where
  hw_ptr : Nat
  be_irq_cnt : Nat
  fe_irq_cnt : Nat
deriving Repr, DecidableEq, Inhabited

/-- Memory events emitted by the backend position-update path
(skl_notify_stream_update): the two stores into the shared descriptor, the
wmb store-barrier, and the virtio_vq_interrupt wake signal. -/
inductive BeEvent where
  | storeHwPtr (v : Nat)
  | storeBeCnt (v : Nat)
  | wmb
  | signal
deriving Repr, DecidableEq

/-- skl-virtio-be.c, skl_notify_stream_update: if the substream has no bound
session or no mapped position descriptor the function returns without any
effect; otherwise it stores the current hardware pointer (rtd->ops.pointer)
into pos_desc->hw_ptr, increments pos_desc->be_irq_cnt, issues wmb() and
raises the interrupt on SKL_VIRTIO_IPC_CMD_RX_VQ.  The bound descriptor is
passed as an Option, the hardware pointer as a parameter; the emitted event
list records the program order of the four steps. -/
def skl_notify_stream_update (bound : Option PosDesc) (pointerVal : Nat) :
    Option PosDesc × List BeEvent :=
  match bound with
  | none => (none, [])
  | some d =>
    (some { d with hw_ptr := pointerVal, be_irq_cnt := d.be_irq_cnt + 1 },
     [BeEvent.storeHwPtr pointerVal, BeEvent.storeBeCnt (d.be_irq_cnt + 1),
      BeEvent.wmb, BeEvent.signal])

/-- A sequence of backend period-boundary updates: one
skl_notify_stream_update call per observed hardware pointer value, with the
emitted events concatenated in order. -/
def backendRun (bound : Option PosDesc) : List Nat → Option PosDesc × List BeEvent
  | [] => (bound, [])
  | p :: rest =>
    match skl_notify_stream_update bound p with
    | (b1, evs1) =>
      match backendRun b1 rest with
      | (b2, evs2) => (b2, evs1 ++ evs2)

/-- Frontend-observable descriptor states: the frontend is woken at each
signal event, and because every signal is preceded by the store-barrier, at
a signal it observes exactly the stores that precede that signal in the
trace.  The result lists the descriptor observed at each signal. -/
def observations (d : PosDesc) : List BeEvent → List PosDesc
  | [] => []
  | BeEvent.storeHwPtr v :: rest => observations { d with hw_ptr := v } rest
  | BeEvent.storeBeCnt v :: rest => observations { d with be_irq_cnt := v } rest
  | BeEvent.wmb :: rest => observations d rest
  | BeEvent.signal :: rest => d :: observations d rest

theorem backendRun_final (d : PosDesc) (ptrs : List Nat) :
    ∃ dF : PosDesc, (backendRun (some d) ptrs).1 = some dF ∧
      dF.be_irq_cnt = d.be_irq_cnt + ptrs.length ∧
      dF.fe_irq_cnt = d.fe_irq_cnt := by
  induction ptrs generalizing d with
  | nil => exact ⟨d, rfl, by simp, rfl⟩
  | cons p rest ih =>
    obtain ⟨dF, h1, h2, h3⟩ :=
      ih { d with hw_ptr := p, be_irq_cnt := d.be_irq_cnt + 1 }
    refine ⟨dF, ?_, ?_, h3⟩
    · simpa [backendRun, skl_notify_stream_update] using h1
    · simp only [List.length_cons]
      simp at h2
      omega

theorem backendRun_obs (d : PosDesc) (ptrs : List Nat) (k : Nat)
    (hk : k < ptrs.length) :
    (observations d (backendRun (some d) ptrs).2).getD k default =
      { hw_ptr := ptrs.getD k 0, be_irq_cnt := d.be_irq_cnt + k + 1,
        fe_irq_cnt := d.fe_irq_cnt } := by
  induction ptrs generalizing d k with
  | nil => simp at hk
  | cons p rest ih =>
    have hrun :
        backendRun (some d) (p :: rest) =
          ((backendRun (some { d with hw_ptr := p, be_irq_cnt := d.be_irq_cnt + 1 })
              rest).1,
            [BeEvent.storeHwPtr p, BeEvent.storeBeCnt (d.be_irq_cnt + 1),
              BeEvent.wmb, BeEvent.signal] ++
            (backendRun (some { d with hw_ptr := p, be_irq_cnt := d.be_irq_cnt + 1 })
              rest).2) := by
      simp [backendRun, skl_notify_stream_update]
    rw [hrun]
    simp only [observations, List.cons_append, List.nil_append]
    cases k with
    | zero => simp
    | succ k2 =>
      have hk2 : k2 < rest.length := by simpa using hk
      have := ih { d with hw_ptr := p, be_irq_cnt := d.be_irq_cnt + 1 } k2 hk2
      simp only [List.getD_cons_succ, List.append_eq, List.nil_append]
      rw [this]
      simp
      omega

/-- C1: on every period boundary for a stream with a bound position
descriptor, skl_notify_stream_update emits, in program order, the hw_ptr
store, the be_irq_cnt increment, the store-barrier and only then the
frontend signal; over any sequence of updates be_irq_cnt grows by exactly
one per update (hence is non-decreasing), and the descriptor observed at
the k-th signal pairs the k-th stored hardware pointer with counter value
initial + k + 1, so a new hw_ptr value is never observable before its
corresponding counter increment. -/
theorem C1_position_update_protocol (d : PosDesc) (ptrs : List Nat) :
    (∀ p, (skl_notify_stream_update (some d) p).2 =
      [BeEvent.storeHwPtr p, BeEvent.storeBeCnt (d.be_irq_cnt + 1),
        BeEvent.wmb, BeEvent.signal])
    ∧ (∃ dF : PosDesc, (backendRun (some d) ptrs).1 = some dF ∧
        dF.be_irq_cnt = d.be_irq_cnt + ptrs.length)
    ∧ (∀ k, k < ptrs.length →
        (observations d (backendRun (some d) ptrs).2).getD k default =
          { hw_ptr := ptrs.getD k 0, be_irq_cnt := d.be_irq_cnt + k + 1,
            fe_irq_cnt := d.fe_irq_cnt })
    ∧ (∀ i j, i ≤ j → j < ptrs.length →
        ((observations d (backendRun (some d) ptrs).2).getD i default).be_irq_cnt ≤
          ((observations d (backendRun (some d) ptrs).2).getD j default).be_irq_cnt) := by
  refine ⟨fun p => rfl, ?_, fun k hk => backendRun_obs d ptrs k hk, ?_⟩
  · obtain ⟨dF, h1, h2, _⟩ := backendRun_final d ptrs
    exact ⟨dF, h1, h2⟩
  · intro i j hij hj
    rw [backendRun_obs d ptrs i (lt_of_le_of_lt hij hj), backendRun_obs d ptrs j hj]
    simp
    omega

theorem C1_witness :
    (1 < ([5, 7] : List Nat).length ∧
      (observations ⟨0, 0, 0⟩ (backendRun (some ⟨0, 0, 0⟩) [5, 7]).2).getD 1 default =
        { hw_ptr := 7, be_irq_cnt := 2, fe_irq_cnt := 0 }) :=
  ⟨by decide, (C1_position_update_protocol ⟨0, 0, 0⟩ [5, 7]).2.2.1 1 (by decide)⟩

/-- Frontend per-stream session record (struct vfe_substream_info): pcm id
and direction key, the open and running advisory flags maintained by
vfe_pcm_open / vfe_pcm_close / vfe_pcm_trigger, whether the substream
self_group mutex is currently held by a control-path mutation, and the
bound shared position descriptor. -/
structure FeSubstream where
  pcm_id : String
  direction : Int
  opened : Bool
  running : Bool
  locked : Bool
  pos_desc : Option PosDesc
deriving Repr, DecidableEq

/-- Processing of one list entry by vfe_cmd_handle_rx (skl-virtio-fe.c):
skipped when the stream is not open, not running, has no descriptor, when
be_irq_cnt equals fe_irq_cnt, or when the substream mutex is locked;
otherwise it computes irq_diff = be_irq_cnt - fe_irq_cnt (as a signed int),
warns about missed interrupts when irq_diff exceeds 1, sets fe_irq_cnt to
be_irq_cnt, and invokes vfe_pcm_period_elapsed for the stream.  Returns the
updated record, the id of the stream for which the period-elapsed procedure
ran (if any), and the missed-interrupt warning (if any). -/
def handleRxOne (s : FeSubstream) :
    FeSubstream × Option String × Option (Int × String) :=
  match s.pos_desc with
  | none => (s, none, none)
  | some d =>
    if ¬ s.opened ∨ ¬ s.running ∨ d.be_irq_cnt = d.fe_irq_cnt ∨ s.locked then
      (s, none, none)
    else
      let irq_diff : Int := (d.be_irq_cnt : Int) - (d.fe_irq_cnt : Int)
      (({ s with pos_desc := some { d with fe_irq_cnt := d.be_irq_cnt } }),
        some s.pcm_id,
        if 1 < irq_diff then some (irq_diff, s.pcm_id) else none)

/-- skl-virtio-fe.c, vfe_cmd_handle_rx: on a wake signal the frontend walks
the whole substream list, applying handleRxOne to each entry; the result
collects the updated list, the streams whose period-elapsed procedure was
invoked, and the missed-interrupt warnings.  The function has no error
result. -/
def vfe_cmd_handle_rx :
    List FeSubstream → List FeSubstream × List String × List (Int × String)
  | [] => ([], [], [])
  | s :: rest =>
    match handleRxOne s, vfe_cmd_handle_rx rest with
    | (s1, e1, m1), (r, es, ms) => (s1 :: r, e1.toList ++ es, m1.toList ++ ms)

theorem vfe_cmd_handle_rx_map (streams : List FeSubstream) :
    (vfe_cmd_handle_rx streams).1 = streams.map (fun t => (handleRxOne t).1) := by
  induction streams with
  | nil => rfl
  | cons s rest ih => simp [vfe_cmd_handle_rx, ih]

/-- C2: on each wake signal, a stream that is open, running, unlocked and
whose descriptor shows be_irq_cnt different from fe_irq_cnt has fe_irq_cnt
set to be_irq_cnt and its period-elapsed procedure invoked; a gap larger
than 1 additionally produces the missed-interrupts warning while the update
to the latest position still happens (the handler has no error result); a
stream whose counters are equal is left unchanged with no invocation; and
the wake handler applies this treatment to every list entry. -/
theorem C2_wake_signal_handling (s : FeSubstream) (d : PosDesc)
    (hd : s.pos_desc = some d) :
    (s.opened = true → s.running = true → s.locked = false →
      d.be_irq_cnt ≠ d.fe_irq_cnt →
        (handleRxOne s).1 =
          { s with pos_desc := some { d with fe_irq_cnt := d.be_irq_cnt } }
        ∧ (handleRxOne s).2.1 = some s.pcm_id
        ∧ (1 < (d.be_irq_cnt : Int) - (d.fe_irq_cnt : Int) →
            (handleRxOne s).2.2 =
              some ((d.be_irq_cnt : Int) - (d.fe_irq_cnt : Int), s.pcm_id))
        ∧ (¬ 1 < (d.be_irq_cnt : Int) - (d.fe_irq_cnt : Int) →
            (handleRxOne s).2.2 = none))
    ∧ (d.be_irq_cnt = d.fe_irq_cnt → handleRxOne s = (s, none, none))
    ∧ (∀ streams : List FeSubstream,
        (vfe_cmd_handle_rx streams).1 = streams.map (fun t => (handleRxOne t).1)) := by
  refine ⟨?_, ?_, vfe_cmd_handle_rx_map⟩
  · intro ho hr hl hne
    simp [handleRxOne, hd, ho, hr, hl, hne]
    intro h
    omega
  · intro heq
    simp [handleRxOne, hd, heq]

/-- Sample frontend substream record for concrete evaluations. -/
def fes0 : FeSubstream :=
  { pcm_id := "pcm0", direction := 0, opened := true, running := true,
    locked := false, pos_desc := some ⟨30, 4, 1⟩ }

theorem C2_witness :
    (fes0.pos_desc = some ⟨30, 4, 1⟩ ∧
      (handleRxOne fes0).1 =
        { fes0 with pos_desc := some { hw_ptr := 30, be_irq_cnt := 4, fe_irq_cnt := 4 } } ∧
      (handleRxOne fes0).2.2 = some (3, "pcm0")) :=
  ⟨rfl,
    ((C2_wake_signal_handling fes0 ⟨30, 4, 1⟩ rfl).1 rfl rfl rfl (by decide)).1,
    ((C2_wake_signal_handling fes0 ⟨30, 4, 1⟩ rfl).1 rfl rfl rfl (by decide)).2.2.1
      (by decide)⟩

/-- Status tag of an in-flight frontend request (enum vfe_ipc_msg_status). -/
inductive VfeMsgStatus where
  | pending
  | completed
  | timedOut
deriving Repr, DecidableEq

/-- Trigger command payload (the SNDRV_PCM_TRIGGER_* value carried by a PCM
Trigger message; vfe_is_stream_running in skl-virtio-fe.c switches on it). -/
inductive TrigCmd where
  | start
  | stop
  | pauseRelease
  | pausePush
  | suspendCmd
  | resumeCmd
deriving Repr, DecidableEq

/-- Message command codes used by the two drivers (the VFE_MSG_* opcodes;
the numeric header values live in a header outside this tree, and the code
only tests them for equality and for their type mask). -/
inductive VfeCmd where
  | pcmOpen
  | pcmClose
  | pcmHwParams
  | pcmPrepare
  | pcmTrigger
  | kctlSet
  | cfgHda
  | cfgResInfo
  | cfgResDesc
  | cfgDomain
deriving Repr, DecidableEq

/-- Command classes selected by cmd AND VFE_MSG_TYPE_MASK. -/
inductive VfeCmdType where
  | pcm
  | kctl
  | cfg
deriving Repr, DecidableEq

/-- The type bits of a command code (cmd AND VFE_MSG_TYPE_MASK). -/
def vfe_msg_type : VfeCmd → VfeCmdType
  | .pcmOpen | .pcmClose | .pcmHwParams | .pcmPrepare | .pcmTrigger => .pcm
  | .kctlSet => .kctl
  | .cfgHda | .cfgResInfo | .cfgResDesc | .cfgDomain => .cfg

/-- An in-flight request (struct vfe_ipc_msg) as seen by the timeout and
completion paths: its command, its atomic status word, and whether rx_buf
and a blocked waiter (waitq/completed pointers) are attached. -/
structure VfeIpcMsg where
  cmd : VfeCmd
  status : VfeMsgStatus
  hasRxBuf : Bool
  hasWaiter : Bool
deriving Repr, DecidableEq

/-- skl-virtio-fe.c, vfe_wait_for_msg_response: with timeout 0 the caller
blocks until completion and returns 0; with a finite timeout, if the
completion flag was not set before the deadline the message status is set
to VFE_MSG_TIMED_OUT and -ETIMEDOUT is returned, otherwise 0.  The
completedInTime flag stands for the outcome of wait_event_timeout. -/
def vfe_wait_for_msg_response (msg : VfeIpcMsg) (timeout : Nat)
    (completedInTime : Bool) : VfeIpcMsg × Int :=
  if timeout = 0 then (msg, 0)
  else if completedInTime then (msg, 0)
  else ({ msg with status := VfeMsgStatus.timedOut }, -ETIMEDOUT)

/-- What vfe_tx_message_loop does with one completed buffer returned by the
virtqueue. -/
structure TxLoopOutcome where
  movedToExpired : Bool
  rxCopiedBack : Bool
  waiterWoken : Bool
deriving Repr, DecidableEq

/-- skl-virtio-fe.c, vfe_tx_message_loop: a message whose status reads
VFE_MSG_TIMED_OUT is appended to the expired list (and the timeout
compensation work is scheduled) without copying rx_buf back and without
waking any waiter; any other message has its rx payload copied back (when
rx_buf is attached) and its waiter woken (when one is attached). -/
def vfe_tx_message_loop_step (msg : VfeIpcMsg) : TxLoopOutcome :=
  if msg.status = VfeMsgStatus.timedOut then
    { movedToExpired := true, rxCopiedBack := false, waiterWoken := false }
  else
    { movedToExpired := false, rxCopiedBack := msg.hasRxBuf,
      waiterWoken := msg.hasWaiter }

/-- Compensating actions run for an expired message. -/
inductive CompAction where
  | pcmCloseCall
deriving Repr, DecidableEq

/-- skl-virtio-fe.c, vfe_handle_timedout_pcm_msg: resolves the PCM named in
the expired message header (nothing happens when it is absent); a timed-out
PCM Open triggers vfe_pcm_close on the substream, any other PCM command is
only logged. -/
def vfe_handle_timedout_pcm_msg (cmd : VfeCmd) (pcmFound : Bool) :
    List CompAction :=
  if pcmFound = false then []
  else
    match cmd with
    | VfeCmd.pcmOpen => [CompAction.pcmCloseCall]
    | _ => []

/-- skl-virtio-fe.c, vfe_handle_timedout_not_tx_msg: dispatches an expired
message on its type bits; PCM messages go to the PCM compensation handler,
all other classes are only logged. -/
def vfe_handle_timedout_not_tx_msg (cmd : VfeCmd) (pcmFound : Bool) :
    List CompAction :=
  match vfe_msg_type cmd with
  | VfeCmdType.pcm => vfe_handle_timedout_pcm_msg cmd pcmFound
  | _ => []

/-- C3: a blocking request with a finite timeout whose completion has not
arrived by the deadline gets status TimedOut and the caller receives
-ETIMEDOUT; when its completion is later drained by the tx message loop,
the payload is not copied back and no waiter is woken, the message being
moved to the expired list instead; and the only compensation for an
expired PCM Open is the automatic Close. -/
theorem C3_timeout_and_late_completion (msg : VfeIpcMsg) (timeout : Nat)
    (ht : timeout ≠ 0) :
    (vfe_wait_for_msg_response msg timeout false).2 = -ETIMEDOUT
    ∧ (vfe_wait_for_msg_response msg timeout false).1.status = VfeMsgStatus.timedOut
    ∧ vfe_tx_message_loop_step (vfe_wait_for_msg_response msg timeout false).1 =
        { movedToExpired := true, rxCopiedBack := false, waiterWoken := false }
    ∧ (msg.cmd = VfeCmd.pcmOpen →
        vfe_handle_timedout_not_tx_msg msg.cmd true = [CompAction.pcmCloseCall])
    ∧ (vfe_msg_type msg.cmd = VfeCmdType.pcm → msg.cmd ≠ VfeCmd.pcmOpen →
        vfe_handle_timedout_not_tx_msg msg.cmd true = []) := by
  refine ⟨?_, ?_, ?_, ?_, ?_⟩
  · simp [vfe_wait_for_msg_response, ht]
  · simp [vfe_wait_for_msg_response, ht]
  · simp [vfe_wait_for_msg_response, vfe_tx_message_loop_step, ht]
  · intro hc
    simp [vfe_handle_timedout_not_tx_msg, vfe_handle_timedout_pcm_msg, hc,
      vfe_msg_type]
  · intro hp hne
    cases hmc : msg.cmd <;>
      simp_all [vfe_handle_timedout_not_tx_msg, vfe_handle_timedout_pcm_msg,
        vfe_msg_type]

theorem C3_witness :
    ((100 : Nat) ≠ 0 ∧
      (vfe_wait_for_msg_response
          ⟨VfeCmd.pcmOpen, VfeMsgStatus.pending, true, true⟩ 100 false).2 =
        -ETIMEDOUT ∧
      vfe_handle_timedout_not_tx_msg VfeCmd.pcmOpen true = [CompAction.pcmCloseCall]) :=
  ⟨by decide,
    (C3_timeout_and_late_completion
      ⟨VfeCmd.pcmOpen, VfeMsgStatus.pending, true, true⟩ 100 (by decide)).1,
    (C3_timeout_and_late_completion
      ⟨VfeCmd.pcmOpen, VfeMsgStatus.pending, true, true⟩ 100 (by decide)).2.2.2.1 rfl⟩

/-- Backend notification-side state (struct snd_skl_vbe plus the
notification virtqueue): the number of free descriptor slots on the
channel, the pending_msg_list, and two history lists used to state the
ordering property: deliveredQ records the messages delivered from the
pending queue by the drain loop (in delivery order) and enqueuedLog records
every message that was ever placed on the pending queue (in enqueue
order). -/
structure BeNotState where
  freeSlots : Nat
  pending : List Nat
  deliveredQ : List Nat
  enqueuedLog : List Nat
deriving Repr, DecidableEq

/-- skl-virtio-be.c, vbe_skl_try_send: succeeds (consuming one descriptor
slot) exactly when the virtqueue has a descriptor available. -/
def vbe_skl_try_send (st : BeNotState) : Bool × BeNotState :=
  if 0 < st.freeSlots then (true, { st with freeSlots := st.freeSlots - 1 })
  else (false, st)

/-- skl-virtio-be.c, vbe_skl_send_or_enqueue: attempts the immediate send;
on failure the message is copied and appended to the tail of
pending_msg_list.  The function is void in the source and its caller
(vbe_send_kctl_msg) reports 0 to its own caller in both cases; that
caller-visible status is returned here. -/
def vbe_skl_send_or_enqueue (st : BeNotState) (m : Nat) : Int × BeNotState :=
  match vbe_skl_try_send st with
  | (true, st1) => (0, st1)
  | (false, st1) =>
    (0, { st1 with
            pending := st1.pending ++ [m],
            enqueuedLog := st1.enqueuedLog ++ [m] })

/-- The drain loop of vbe_skl_ipc_fe_not_reply_get: takes the first pending
entry, re-attempts the send, removes it on success and repeats; stops at
the first send failure, leaving the remaining entries queued. -/
def drainLoop : Nat → List Nat → List Nat → Nat × List Nat × List Nat
  | slots, [], dq => (slots, [], dq)
  | slots, m :: rest, dq =>
    if 0 < slots then drainLoop (slots - 1) rest (dq ++ [m])
    else (slots, m :: rest, dq)

/-- skl-virtio-be.c, vbe_skl_ipc_fe_not_reply_get: on a channel-ready kick,
drains the pending queue head-first until it is empty or a send fails. -/
def vbe_skl_ipc_fe_not_reply_get (st : BeNotState) : BeNotState :=
  match drainLoop st.freeSlots st.pending st.deliveredQ with
  | (s, p, dq) => { st with freeSlots := s, pending := p, deliveredQ := dq }

/-- Interleaving alphabet for the notification path: an outbound
notification send, or a channel-ready kick that makes k descriptor slots
available and runs the drain handler. -/
inductive NotEvent where
  | send (m : Nat)
  | chanReady (k : Nat)
deriving Repr, DecidableEq

/-- One step of the notification-path interleaving. -/
def notStep (st : BeNotState) : NotEvent → BeNotState
  | NotEvent.send m => (vbe_skl_send_or_enqueue st m).2
  | NotEvent.chanReady k =>
    vbe_skl_ipc_fe_not_reply_get { st with freeSlots := st.freeSlots + k }

/-- An arbitrary interleaving of sends and channel-ready kicks. -/
def notRun (st : BeNotState) (evs : List NotEvent) : BeNotState :=
  evs.foldl notStep st

theorem drainLoop_spec (slots : Nat) (p dq : List Nat) :
    drainLoop slots p dq =
      (slots - min slots p.length, p.drop (min slots p.length),
        dq ++ p.take (min slots p.length)) := by
  induction p generalizing slots dq with
  | nil => simp [drainLoop]
  | cons m rest ih =>
    cases slots with
    | zero => simp [drainLoop]
    | succ s =>
      simp only [drainLoop, Nat.zero_lt_succ, if_pos, Nat.succ_sub_one]
      rw [ih s (dq ++ [m])]
      simp [Nat.succ_min_succ, List.take_succ_cons, List.drop_succ_cons]

/-- The FIFO invariant: the messages already delivered from the pending
queue followed by those still pending is exactly the sequence of enqueues. -/
def fifoInv (st : BeNotState) : Prop :=
  st.deliveredQ ++ st.pending = st.enqueuedLog

theorem notStep_fifoInv (st : BeNotState) (e : NotEvent) (h : fifoInv st) :
    fifoInv (notStep st e) := by
  cases e with
  | send m =>
    by_cases hs : 0 < st.freeSlots
    · simpa [notStep, vbe_skl_send_or_enqueue, vbe_skl_try_send, hs, fifoInv]
        using h
    · simp only [fifoInv] at h ⊢
      simp [notStep, vbe_skl_send_or_enqueue, vbe_skl_try_send, hs,
        ← List.append_assoc, h]
  | chanReady k =>
    simp only [fifoInv] at h ⊢
    simp [notStep, vbe_skl_ipc_fe_not_reply_get, drainLoop_spec,
      List.append_assoc, List.take_append_drop, h]

theorem notRun_fifoInv (st : BeNotState) (evs : List NotEvent)
    (h : fifoInv st) : fifoInv (notRun st evs) := by
  induction evs generalizing st with
  | nil => exact h
  | cons e rest ih => exact ih (notStep st e) (notStep_fifoInv st e h)

/-- C4: a notification that cannot be submitted for lack of a free slot is
appended to the pending queue while the send still reports success to its
caller; each channel-ready kick drains the pending queue head-first,
delivering exactly the longest sendable prefix and stopping at the first
failure; and across any interleaving of sends and kicks the messages
delivered from the pending queue followed by those still pending equal the
enqueue-order log, so queued notifications are delivered in FIFO order. -/
theorem C4_pending_queue_fifo (st : BeNotState) (m : Nat)
    (evs : List NotEvent) (h : fifoInv st) :
    (st.freeSlots = 0 →
      vbe_skl_send_or_enqueue st m =
        (0, { st with
                pending := st.pending ++ [m],
                enqueuedLog := st.enqueuedLog ++ [m] }))
    ∧ (vbe_skl_ipc_fe_not_reply_get st).pending =
        st.pending.drop (min st.freeSlots st.pending.length)
    ∧ (vbe_skl_ipc_fe_not_reply_get st).deliveredQ =
        st.deliveredQ ++ st.pending.take (min st.freeSlots st.pending.length)
    ∧ fifoInv (notRun st evs) := by
  refine ⟨?_, ?_, ?_, notRun_fifoInv st evs h⟩
  · intro h0
    simp [vbe_skl_send_or_enqueue, vbe_skl_try_send, h0]
  · simp [vbe_skl_ipc_fe_not_reply_get, drainLoop_spec]
  · simp [vbe_skl_ipc_fe_not_reply_get, drainLoop_spec]

theorem C4_witness :
    (fifoInv ⟨0, [], [], []⟩ ∧
      fifoInv (notRun ⟨0, [], [], []⟩
        [NotEvent.send 1, NotEvent.send 2, NotEvent.chanReady 1,
          NotEvent.send 3, NotEvent.chanReady 5])) :=
  ⟨rfl,
    (C4_pending_queue_fifo ⟨0, [], [], []⟩ 1
      [NotEvent.send 1, NotEvent.send 2, NotEvent.chanReady 1,
        NotEvent.send 3, NotEvent.chanReady 5] rfl).2.2.2⟩

/-- Payload geometry of a received message (the tx_size / rx_size iov
lengths of struct vbe_ipc_msg, with rx_present modelling a non-null
rx_data pointer). -/
structure MsgSizes where
  tx_size : Nat
  rx_size : Nat
  rx_present : Bool
deriving Repr, DecidableEq

/-- Backend environment: the sound card and external collaborators consumed
by the PCM message handlers.  cardPcms lists the pcm ids present on the
card rtd list; pcmDomain is the topology resolution performed by
vbe_skl_pcm_get_domain_id through skl_tplg_fe_get_cpr_module (none when no
copier module config exists for the pcm/direction); the ops fields are the
return values of the underlying substream operations (rtd->ops.*), and
prepareDmaOk is the outcome of vbe_skl_prepare_dma (guest-physical
translation plus position-descriptor mapping). -/
structure BeEnv where
  cardPcms : List String
  pcmDomain : String → Int → Option Int
  opsOpen : Int
  opsClose : Int
  opsPrepare : Int
  opsHwParams : Int
  opsTrigger : Int
  prepareDmaOk : Bool

/-- Backend session registry state: the client substr_info_list keyed by
(pcm id, direction), and the ref_count of each substream. -/
structure BeState where
  sessions : List (String × Int)
  refCnt : String → Int → Nat

/-- skl-virtio-be.c, vbe_skl_is_valid_pcm_id: rejects an empty pcm id and
the sentinel string.  (The C NULL-pointer case has no counterpart for a
Lean String and is subsumed by the empty check.) -/
def vbe_skl_is_valid_pcm_id (pcm_id : String) : Int :=
  if pcm_id.length = 0 ∨ pcm_id = "((null))" then -EINVAL else 0

/-- skl-virtio-be.c, vbe_skl_find_rtd_by_pcm_id: validates the pcm id and
searches the card rtd list; true when a runtime with that pcm id exists. -/
def vbe_skl_find_rtd_by_pcm_id (env : BeEnv) (pcm_id : String) : Bool :=
  if vbe_skl_is_valid_pcm_id pcm_id < 0 then false
  else env.cardPcms.contains pcm_id

/-- skl-virtio-be.c, vbe_skl_find_pcm_by_name: returns NULL for an empty
name, otherwise resolves through the rtd list. -/
def vbe_skl_find_pcm_by_name (env : BeEnv) (pcm_id : String) : Bool :=
  if pcm_id.length = 0 then false
  else vbe_skl_find_rtd_by_pcm_id env pcm_id

/-- skl-virtio-be.c, vbe_skl_pcm_get_domain_id: -ENODEV when the pcm id
resolves to no runtime, the copier module domain id on success, -EINVAL
when no module config is found for the pcm/direction. -/
def vbe_skl_pcm_get_domain_id (env : BeEnv) (pcm_id : String)
    (direction : Int) : Except Int Int :=
  if vbe_skl_find_rtd_by_pcm_id env pcm_id = false then Except.error (-ENODEV)
  else
    match env.pcmDomain pcm_id direction with
    | some did => Except.ok did
    | none => Except.error (-EINVAL)

/-- skl-virtio-be.c, vbe_skl_pcm_check_permission: propagates a resolution
failure; otherwise -EACCES when the requesting domain id differs from the
resolved owning domain id, 0 when they match. -/
def vbe_skl_pcm_check_permission (env : BeEnv) (domain_id : Int)
    (pcm_id : String) (direction : Int) : Int :=
  match vbe_skl_pcm_get_domain_id env pcm_id direction with
  | Except.error e => e
  | Except.ok pcm_domain_id =>
    if domain_id ≠ pcm_domain_id then -EACCES else 0

/-- skl-virtio-be.c, vbe_skl_pcm_open: -ENODEV when the named pcm does not
exist; then the permission check, whose failure is returned unchanged; then
-EBUSY when the substream ref_count is positive; otherwise the runtime is
allocated, a session record is added to the client list, ref_count is
incremented and the underlying open operation result is returned (the
session stays registered even if that operation fails; allocation and
client lookup are modelled as succeeding). -/
def vbe_skl_pcm_open (env : BeEnv) (st : BeState) (domain_id : Int)
    (pcm_id : String) (direction : Int) : Int × BeState :=
  if vbe_skl_find_pcm_by_name env pcm_id = false then (-ENODEV, st)
  else if vbe_skl_pcm_check_permission env domain_id pcm_id direction < 0 then
    (vbe_skl_pcm_check_permission env domain_id pcm_id direction, st)
  else if 0 < st.refCnt pcm_id direction then (-EBUSY, st)
  else
    (env.opsOpen,
      { sessions := (pcm_id, direction) :: st.sessions,
        refCnt := fun p d =>
          if p = pcm_id ∧ d = direction then st.refCnt p d + 1
          else st.refCnt p d })

/-- skl-virtio-be.c, vbe_skl_pcm_close: restores the native DMA addresses,
unmaps the position descriptor, removes the session record, zeroes
ref_count and returns the underlying close operation result. -/
def vbe_skl_pcm_close (env : BeEnv) (st : BeState) (pcm_id : String)
    (direction : Int) : Int × BeState :=
  (env.opsClose,
    { sessions := st.sessions.erase (pcm_id, direction),
      refCnt := fun p d =>
        if p = pcm_id ∧ d = direction then 0 else st.refCnt p d })

/-- skl-virtio-be.c, vbe_skl_pcm_prepare: -EINVAL when vbe_skl_prepare_dma
fails (address translation or descriptor mapping), otherwise the underlying
prepare operation result.  No size validation is performed on the payload
(the dma configuration is read from tx_data as-is). -/
def vbe_skl_pcm_prepare (env : BeEnv) (st : BeState) (sz : MsgSizes) :
    Int × BeState :=
  if env.prepareDmaOk = false then (-EINVAL, st)
  else (env.opsPrepare, st)

/-- skl-virtio-be.c, vbe_skl_pcm_hw_params: assembles the hardware
parameters from tx_data and forwards them to the underlying operation.  No
size validation is performed on tx_data or rx_data (the source carries a
TODO comment for exactly this check). -/
def vbe_skl_pcm_hw_params (env : BeEnv) (st : BeState) (sz : MsgSizes) :
    Int × BeState :=
  (env.opsHwParams, st)

/-- skl-virtio-be.c, vbe_skl_pcm_trigger: reads the trigger command from
tx_data and forwards it to the underlying trigger operation.  No size
validation is performed on tx_data. -/
def vbe_skl_pcm_trigger (env : BeEnv) (st : BeState) (sz : MsgSizes)
    (cmd : TrigCmd) : Int × BeState :=
  (env.opsTrigger, st)

/-- A PCM message as dispatched by vbe_skl_msg_pcm_handle. -/
inductive PcmMsg where
  | msgOpen
  | msgClose
  | msgPrepare
  | msgHwParams
  | msgTrigger (cmd : TrigCmd)
deriving Repr, DecidableEq

/-- Guard shared by all non-Open PCM commands in vbe_skl_msg_pcm_handle: the
body runs only when vbe_find_substream_info_by_pcm finds a session for
(pcm id, direction); otherwise the handler logs and returns -ENODEV. -/
def withSession (st : BeState) (pcm_id : String) (direction : Int)
    (k : Int × BeState) : Int × BeState :=
  if (pcm_id, direction) ∈ st.sessions then k else (-ENODEV, st)

/-- skl-virtio-be.c, vbe_skl_msg_pcm_handle: -EINVAL when no client is
registered; Open is dispatched directly; Close, Prepare, HwParams and
Trigger first require an existing session for (pcm id, direction) and are
rejected with -ENODEV otherwise. -/
def vbe_skl_msg_pcm_handle (env : BeEnv) (st : BeState)
    (clientExists : Bool) (m : PcmMsg) (sz : MsgSizes) (domain_id : Int)
    (pcm_id : String) (direction : Int) : Int × BeState :=
  if clientExists = false then (-EINVAL, st)
  else
    match m with
    | PcmMsg.msgOpen => vbe_skl_pcm_open env st domain_id pcm_id direction
    | PcmMsg.msgClose =>
      withSession st pcm_id direction (vbe_skl_pcm_close env st pcm_id direction)
    | PcmMsg.msgPrepare =>
      withSession st pcm_id direction (vbe_skl_pcm_prepare env st sz)
    | PcmMsg.msgHwParams =>
      withSession st pcm_id direction (vbe_skl_pcm_hw_params env st sz)
    | PcmMsg.msgTrigger c =>
      withSession st pcm_id direction (vbe_skl_pcm_trigger env st sz c)

/-- skl-virtio-fe.c, vfe_is_stream_running: start, pause-release and resume
put the stream in the running state; stop, pause-push and suspend do not. -/
def vfe_is_stream_running : TrigCmd → Bool
  | TrigCmd.start => true
  | TrigCmd.pauseRelease => true
  | TrigCmd.resumeCmd => true
  | TrigCmd.pausePush => false
  | TrigCmd.suspendCmd => false
  | TrigCmd.stop => false

/-- States of the per-stream PCM state machine of spec section 4.2. -/
inductive TableState where
  | closed
  | openedSt
  | configured
  | prepared
  | runningSt
deriving Repr, DecidableEq

/-- Modelled from the spec: the section 4.2 transition table.  CLOSED goes
to OPENED on Open; OPENED to CONFIGURED on HwParams; CONFIGURED to PREPARED
on Prepare; PREPARED to RUNNING on Trigger start/resume; RUNNING to
PREPARED on Trigger pause/suspend; any non-CLOSED state goes to CLOSED on
Close; anything else is out-of-order (none). -/
def tableStep : TableState → PcmMsg → Option TableState
  | TableState.closed, PcmMsg.msgOpen => some TableState.openedSt
  | TableState.closed, _ => none
  | TableState.openedSt, PcmMsg.msgHwParams => some TableState.configured
  | TableState.configured, PcmMsg.msgPrepare => some TableState.prepared
  | TableState.prepared, PcmMsg.msgTrigger c =>
    if vfe_is_stream_running c then some TableState.runningSt else none
  | TableState.runningSt, PcmMsg.msgTrigger c =>
    if vfe_is_stream_running c then none else some TableState.prepared
  | _, PcmMsg.msgClose => some TableState.closed
  | _, _ => none

/-- The registry state of the code corresponds to a table state: the code
tracks a session for the key exactly in the non-CLOSED table states. -/
def registryMatchesTable (st : BeState) (ts : TableState) (pcm_id : String)
    (direction : Int) : Prop :=
  ((pcm_id, direction) ∈ st.sessions ↔ ts ≠ TableState.closed)

/-- The second half of claim C5 as stated: whenever the registry agrees
with a table state and the section 4.2 table has no transition for the
received message, the backend handler rejects the message with an error. -/
def rejectsOutOfOrderMsgs : Prop :=
  ∀ (env : BeEnv) (st : BeState) (ts : TableState) (m : PcmMsg)
    (sz : MsgSizes) (domain_id : Int) (pcm_id : String) (direction : Int),
    registryMatchesTable st ts pcm_id direction →
    tableStep ts m = none →
    (vbe_skl_msg_pcm_handle env st true m sz domain_id pcm_id direction).1 < 0

/-- Sample backend environment for concrete evaluations: one pcm "pcm0"
owned by domain 1 in both directions, all substream operations
succeeding. -/
def beEnv0 : BeEnv :=
  { cardPcms := ["pcm0"],
    pcmDomain := fun p _ => if p = "pcm0" then some 1 else none,
    opsOpen := 0, opsClose := 0, opsPrepare := 0, opsHwParams := 0,
    opsTrigger := 0, prepareDmaOk := true }

/-- Sample registry with no session. -/
def beStEmpty : BeState :=
  { sessions := [], refCnt := fun _ _ => 0 }

/-- Sample registry holding one session for ("pcm0", 0). -/
def beStOne : BeState :=
  { sessions := [("pcm0", 0)], refCnt := fun p d => if p = "pcm0" ∧ d = 0 then 1 else 0 }

/-- Neutral payload geometry for concrete evaluations. -/
def sz0 : MsgSizes := { tx_size := 16, rx_size := 16, rx_present := true }

/-- C5 counterexample: the backend does not reject every out-of-order
message with an error.  Concretely, with a session just opened for
("pcm0", 0) (table state OPENED) a Trigger-start message has no section 4.2
transition, yet vbe_skl_msg_pcm_handle forwards it to the substream trigger
operation and returns its (non-negative) status instead of an error. -/
theorem C5_counterexample : ¬ rejectsOutOfOrderMsgs := by
  intro hall
  have h := hall beEnv0 beStOne TableState.openedSt
    (PcmMsg.msgTrigger TrigCmd.start) sz0 1 "pcm0" 0
    (by simp [registryMatchesTable, beStOne]) (by simp [tableStep])
  simp [vbe_skl_msg_pcm_handle, withSession, beStOne, vbe_skl_pcm_trigger,
    beEnv0] at h

/-- C5 (amended): every PCM command other than Open is handled only when a
session created by a prior successful Open exists for (pcm id, direction)
and is otherwise rejected with -ENODEV (NoSuchStream) leaving the registry
unchanged; the registry itself only distinguishes session existence, so
when a session exists the non-Open commands are forwarded to the
corresponding substream operation regardless of their position in the
section 4.2 table. -/
theorem C5_session_gated_dispatch (env : BeEnv) (st : BeState)
    (sz : MsgSizes) (domain_id : Int) (pcm_id : String) (direction : Int) :
    ((pcm_id, direction) ∉ st.sessions →
      (∀ c, vbe_skl_msg_pcm_handle env st true (PcmMsg.msgTrigger c) sz
          domain_id pcm_id direction = (-ENODEV, st))
      ∧ vbe_skl_msg_pcm_handle env st true PcmMsg.msgClose sz
          domain_id pcm_id direction = (-ENODEV, st)
      ∧ vbe_skl_msg_pcm_handle env st true PcmMsg.msgPrepare sz
          domain_id pcm_id direction = (-ENODEV, st)
      ∧ vbe_skl_msg_pcm_handle env st true PcmMsg.msgHwParams sz
          domain_id pcm_id direction = (-ENODEV, st))
    ∧ ((pcm_id, direction) ∈ st.sessions →
      (∀ c, vbe_skl_msg_pcm_handle env st true (PcmMsg.msgTrigger c) sz
          domain_id pcm_id direction = vbe_skl_pcm_trigger env st sz c)
      ∧ vbe_skl_msg_pcm_handle env st true PcmMsg.msgClose sz
          domain_id pcm_id direction = vbe_skl_pcm_close env st pcm_id direction
      ∧ vbe_skl_msg_pcm_handle env st true PcmMsg.msgPrepare sz
          domain_id pcm_id direction = vbe_skl_pcm_prepare env st sz
      ∧ vbe_skl_msg_pcm_handle env st true PcmMsg.msgHwParams sz
          domain_id pcm_id direction = vbe_skl_pcm_hw_params env st sz) := by
  constructor
  · intro hns
    exact ⟨fun c => by simp [vbe_skl_msg_pcm_handle, withSession, hns],
      by simp [vbe_skl_msg_pcm_handle, withSession, hns],
      by simp [vbe_skl_msg_pcm_handle, withSession, hns],
      by simp [vbe_skl_msg_pcm_handle, withSession, hns]⟩
  · intro hs
    exact ⟨fun c => by simp [vbe_skl_msg_pcm_handle, withSession, hs],
      by simp [vbe_skl_msg_pcm_handle, withSession, hs],
      by simp [vbe_skl_msg_pcm_handle, withSession, hs],
      by simp [vbe_skl_msg_pcm_handle, withSession, hs]⟩

theorem C5_witness :
    (vbe_skl_msg_pcm_handle beEnv0 beStEmpty true PcmMsg.msgPrepare sz0 1
        "pcm0" 0 = (-ENODEV, beStEmpty)
      ∧ vbe_skl_msg_pcm_handle beEnv0 beStOne true PcmMsg.msgClose sz0 1
          "pcm0" 0 = vbe_skl_pcm_close beEnv0 beStOne "pcm0" 0) :=
  ⟨((C5_session_gated_dispatch beEnv0 beStEmpty sz0 1 "pcm0" 0).1
      (by simp [beStEmpty])).2.2.1,
    ((C5_session_gated_dispatch beEnv0 beStOne sz0 1 "pcm0" 0).2
      (by simp [beStOne])).2.1⟩

/-- C6: an Open for a (pcm id, direction) whose substream is already in use
(positive ref_count, set by any prior successful Open) fails with -EBUSY,
creates no session and leaves the registry state completely unchanged. -/
theorem C6_open_busy (env : BeEnv) (st : BeState) (domain_id : Int)
    (pcm_id : String) (direction : Int)
    (hfind : vbe_skl_find_pcm_by_name env pcm_id = true)
    (hperm : vbe_skl_pcm_check_permission env domain_id pcm_id direction = 0)
    (hbusy : 0 < st.refCnt pcm_id direction) :
    vbe_skl_pcm_open env st domain_id pcm_id direction = (-EBUSY, st) := by
  simp [vbe_skl_pcm_open, hfind, hperm, hbusy]

theorem C6_witness :
    (vbe_skl_find_pcm_by_name beEnv0 "pcm0" = true ∧
      vbe_skl_pcm_check_permission beEnv0 1 "pcm0" 0 = 0 ∧
      0 < beStOne.refCnt "pcm0" 0 ∧
      vbe_skl_pcm_open beEnv0 beStOne 1 "pcm0" 0 = (-EBUSY, beStOne)) :=
  ⟨by decide, by decide, by decide,
    C6_open_busy beEnv0 beStOne 1 "pcm0" 0 (by decide) (by decide) (by decide)⟩

theorem check_permission_resolved (env : BeEnv) (domain_id : Int)
    (pcm_id : String) (direction : Int) (ownId : Int)
    (hres : vbe_skl_pcm_get_domain_id env pcm_id direction = Except.ok ownId) :
    vbe_skl_pcm_check_permission env domain_id pcm_id direction =
      if domain_id ≠ ownId then -EACCES else 0 := by
  simp [vbe_skl_pcm_check_permission, hres]

theorem resolved_implies_found (env : BeEnv) (pcm_id : String)
    (direction : Int) (ownId : Int)
    (hres : vbe_skl_pcm_get_domain_id env pcm_id direction = Except.ok ownId) :
    vbe_skl_find_pcm_by_name env pcm_id = true := by
  by_cases hrtd : vbe_skl_find_rtd_by_pcm_id env pcm_id = false
  · simp [vbe_skl_pcm_get_domain_id, hrtd] at hres
  · have hrtd2 : vbe_skl_find_rtd_by_pcm_id env pcm_id = true := by
      cases h : vbe_skl_find_rtd_by_pcm_id env pcm_id
      · exact absurd h hrtd
      · rfl
    have hlen : ¬ pcm_id.length = 0 := by
      intro h0
      have : vbe_skl_is_valid_pcm_id pcm_id < 0 := by
        simp [vbe_skl_is_valid_pcm_id, h0, EINVAL]
      simp [vbe_skl_find_rtd_by_pcm_id, this] at hrtd2
    simp [vbe_skl_find_pcm_by_name, hlen, hrtd2]

/-- C7: when the owning domain of a PCM resource resolves, an operation
from domain D passes the access-control check exactly when the id of D
equals the resolved owning domain id; when the ids differ the check yields
-EACCES and an Open request fails with -EACCES without touching the
registry or reaching any substream operation. -/
theorem C7_domain_access_control (env : BeEnv) (st : BeState)
    (domain_id : Int) (pcm_id : String) (direction : Int) (ownId : Int)
    (hres : vbe_skl_pcm_get_domain_id env pcm_id direction = Except.ok ownId) :
    (vbe_skl_pcm_check_permission env domain_id pcm_id direction = 0 ↔
      domain_id = ownId)
    ∧ (domain_id ≠ ownId →
        vbe_skl_pcm_check_permission env domain_id pcm_id direction = -EACCES
        ∧ vbe_skl_pcm_open env st domain_id pcm_id direction = (-EACCES, st)) := by
  have hcp := check_permission_resolved env domain_id pcm_id direction ownId hres
  constructor
  · constructor
    · intro h0
      by_contra hne
      rw [hcp] at h0
      simp [hne, EACCES] at h0
    · intro he
      rw [hcp]
      simp [he]
  · intro hne
    have hc : vbe_skl_pcm_check_permission env domain_id pcm_id direction =
        -EACCES := by simp [hcp, hne]
    refine ⟨hc, ?_⟩
    have hfind := resolved_implies_found env pcm_id direction ownId hres
    simp [vbe_skl_pcm_open, hfind, hc, EACCES]

theorem C7_witness :
    (vbe_skl_pcm_get_domain_id beEnv0 "pcm0" 0 = Except.ok 1 ∧
      (vbe_skl_pcm_check_permission beEnv0 1 "pcm0" 0 = 0 ↔ (1 : Int) = 1) ∧
      vbe_skl_pcm_check_permission beEnv0 2 "pcm0" 0 = -EACCES ∧
      vbe_skl_pcm_open beEnv0 beStEmpty 2 "pcm0" 0 = (-EACCES, beStEmpty)) := by
  have hres : vbe_skl_pcm_get_domain_id beEnv0 "pcm0" 0 = Except.ok 1 := rfl
  exact ⟨hres,
    (C7_domain_access_control beEnv0 beStEmpty 1 "pcm0" 0 1 hres).1,
    ((C7_domain_access_control beEnv0 beStEmpty 2 "pcm0" 0 1 hres).2
      (by decide)).1,
    ((C7_domain_access_control beEnv0 beStEmpty 2 "pcm0" 0 1 hres).2
      (by decide)).2⟩

/-- Resource classes of the two-phase transfer (VFE_*_RES selectors). -/
inductive ResType where
  | topology
  | firmware
  | library
  | unknownRes
deriving Repr, DecidableEq

/-- Backend configuration environment for the CFG opcodes: the resolvable
resource blobs (the client topology, the base DSP firmware, the named
library images, each as its byte contents) and the wire sizes of the fixed
reply structures (sizeof struct vfe_resource_info, vfe_resource_desc,
vfe_hda_cfg; the struct layouts live in a header outside this tree, so the
sizes are carried as environment values). -/
structure CfgEnv where
  clientTplg : Option (List Nat)
  baseFw : Option (List Nat)
  libFw : String → Option (List Nat)
  szResInfo : Nat
  szResDesc : Nat
  szHdaCfg : Nat

/-- skl-virtio-be.c, vbe_find_res_hndl: resolves a resource type and name
to a firmware blob: the first client topology, the base firmware, or a
library image found by name; NULL for an unknown type or a failed
lookup. -/
def vbe_find_res_hndl (env : CfgEnv) (t : ResType) (name : String) :
    Option (List Nat) :=
  match t with
  | ResType.topology => env.clientTplg
  | ResType.firmware => env.baseFw
  | ResType.library => env.libFw name
  | ResType.unknownRes => none

/-- skl-virtio-be.c, vbe_skl_cfg_resource_info: -EINVAL unless rx_data is
present with exactly sizeof(struct vfe_resource_info); then the resolved
resource size is reported (0 and -EBADF when the resource is absent).
Returns (status, reported size). -/
def vbe_skl_cfg_resource_info (env : CfgEnv) (sz : MsgSizes) (t : ResType)
    (name : String) : Int × Nat :=
  if sz.rx_present = false ∨ sz.rx_size ≠ env.szResInfo then (-EINVAL, 0)
  else
    match vbe_find_res_hndl env t name with
    | none => (-EBADF, 0)
    | some bs => (0, bs.length)

/-- skl-virtio-be.c, vbe_skl_cfg_resource_desc: -EINVAL unless rx_data is
present with exactly sizeof(struct vfe_resource_desc); -EBADF when the
resource no longer resolves; -EINVAL (size mismatch, no copy) when the
resolved size differs from the size the caller supplied; otherwise exactly
the supplied number of bytes is copied into the destination region and the
status is 0.  Returns (status, copied bytes). -/
def vbe_skl_cfg_resource_desc (env : CfgEnv) (sz : MsgSizes) (t : ResType)
    (name : String) (expectedSize : Nat) : Int × Option (List Nat) :=
  if sz.rx_present = false ∨ sz.rx_size ≠ env.szResDesc then (-EINVAL, none)
  else
    match vbe_find_res_hndl env t name with
    | none => (-EBADF, none)
    | some bs =>
      if bs.length ≠ expectedSize then (-EINVAL, none)
      else (0, some (bs.take expectedSize))

/-- skl-virtio-be.c, vbe_skl_cfg_hda: -EINVAL unless rx_data is present
with exactly sizeof(struct vfe_hda_cfg); otherwise the controller
capability snapshot is written into the reply and 0 returned. -/
def vbe_skl_cfg_hda (env : CfgEnv) (sz : MsgSizes) : Int :=
  if sz.rx_present = false ∨ sz.rx_size ≠ env.szHdaCfg then -EINVAL else 0

/-- C8: for a resource left unchanged between the two phases, the Info
phase and the Descriptor phase report the same size, the Descriptor phase
copies exactly that many bytes into the destination with status 0
(non-negative); and when the size supplied to the Descriptor phase differs
from the resolved resource size the request fails with the size-mismatch
error and no bytes are copied. -/
theorem C8_two_phase_resource_transfer (env : CfgEnv) (szI szD : MsgSizes)
    (t : ResType) (name : String) (bs : List Nat)
    (hres : vbe_find_res_hndl env t name = some bs)
    (hI : szI.rx_present = true) (hIs : szI.rx_size = env.szResInfo)
    (hD : szD.rx_present = true) (hDs : szD.rx_size = env.szResDesc) :
    vbe_skl_cfg_resource_info env szI t name = (0, bs.length)
    ∧ vbe_skl_cfg_resource_desc env szD t name bs.length = (0, some bs)
    ∧ (vbe_skl_cfg_resource_desc env szD t name bs.length).2.map List.length =
        some bs.length
    ∧ ∀ e, e ≠ bs.length →
        vbe_skl_cfg_resource_desc env szD t name e = (-EINVAL, none) := by
  refine ⟨?_, ?_, ?_, ?_⟩
  · simp [vbe_skl_cfg_resource_info, hI, hIs, hres]
  · simp [vbe_skl_cfg_resource_desc, hD, hDs, hres]
  · simp [vbe_skl_cfg_resource_desc, hD, hDs, hres]
  · intro e he
    simp [vbe_skl_cfg_resource_desc, hD, hDs, hres, he]
    exact fun h => absurd h.symm he

/-- Sample configuration environment: a 4-byte base firmware image and
concrete wire sizes. -/
def cfgEnv0 : CfgEnv :=
  { clientTplg := none, baseFw := some [1, 2, 3, 4], libFw := fun _ => none,
    szResInfo := 40, szResDesc := 56, szHdaCfg := 26 }

theorem C8_witness :
    (vbe_find_res_hndl cfgEnv0 ResType.firmware "fw" = some [1, 2, 3, 4] ∧
      vbe_skl_cfg_resource_info cfgEnv0 ⟨0, 40, true⟩ ResType.firmware "fw" =
        (0, 4) ∧
      vbe_skl_cfg_resource_desc cfgEnv0 ⟨0, 56, true⟩ ResType.firmware "fw" 4 =
        (0, some [1, 2, 3, 4]) ∧
      vbe_skl_cfg_resource_desc cfgEnv0 ⟨0, 56, true⟩ ResType.firmware "fw" 7 =
        (-EINVAL, none)) :=
  ⟨rfl,
    (C8_two_phase_resource_transfer cfgEnv0 ⟨0, 40, true⟩ ⟨0, 56, true⟩
      ResType.firmware "fw" [1, 2, 3, 4] rfl rfl rfl rfl rfl).1,
    (C8_two_phase_resource_transfer cfgEnv0 ⟨0, 40, true⟩ ⟨0, 56, true⟩
      ResType.firmware "fw" [1, 2, 3, 4] rfl rfl rfl rfl rfl).2.1,
    (C8_two_phase_resource_transfer cfgEnv0 ⟨0, 40, true⟩ ⟨0, 56, true⟩
      ResType.firmware "fw" [1, 2, 3, 4] rfl rfl rfl rfl rfl).2.2.2 7
      (by decide)⟩

/-- C9: the CFG opcodes do validate their fixed reply payload size
(-EINVAL on mismatch), but no PCM opcode validates payload sizes: a
HwParams or Trigger message whose payload geometry is arbitrary (here a
zero-length tx and absent rx) is still forwarded to the underlying
substream operation and yields that operation's status (0 here) rather
than any size-mismatch error, and this holds for every payload geometry.
This evaluates the code at the failing input of the size-validation
claim. -/
theorem C9_pcm_payload_size_unchecked :
    ((vbe_skl_pcm_hw_params beEnv0 beStOne ⟨0, 0, false⟩).1 = 0
      ∧ (vbe_skl_pcm_trigger beEnv0 beStOne ⟨0, 0, false⟩ TrigCmd.start).1 = 0
      ∧ (vbe_skl_pcm_prepare beEnv0 beStOne ⟨0, 0, false⟩).1 = 0)
    ∧ (∀ (env : BeEnv) (st : BeState) (sz : MsgSizes),
        vbe_skl_pcm_hw_params env st sz = (env.opsHwParams, st)
        ∧ ∀ c, vbe_skl_pcm_trigger env st sz c = (env.opsTrigger, st))
    ∧ vbe_skl_cfg_resource_info cfgEnv0 ⟨0, 0, false⟩ ResType.firmware "fw" =
        (-EINVAL, 0)
    ∧ vbe_skl_cfg_resource_desc cfgEnv0 ⟨0, 0, false⟩ ResType.firmware "fw" 4 =
        (-EINVAL, none)
    ∧ vbe_skl_cfg_hda cfgEnv0 ⟨0, 0, false⟩ = -EINVAL := by
  refine ⟨⟨rfl, rfl, rfl⟩, ?_, rfl, rfl, rfl⟩
  intro env st sz
  exact ⟨rfl, fun c => rfl⟩

/-- skl-virtio-fe.c, vfe_is_valid_pcm_id: -EINVAL for an empty pcm id or
the "((null))" sentinel, 0 otherwise.  (The C NULL-pointer case has no
counterpart for a Lean String and is subsumed by the empty check.) -/
def vfe_is_valid_pcm_id (pcm_id : String) : Int :=
  if pcm_id.length = 0 ∨ pcm_id = "((null))" then -EINVAL else 0

/-- Messages the frontend callbacks send to the backend through
vfe_send_msg / vfe_send_msg_with_timeout. -/
inductive FeMsg where
  | pcmOpen (pcm_id : String) (direction : Int)
  | pcmClose (pcm_id : String) (direction : Int)
  | pcmHwParams (pcm_id : String) (direction : Int)
  | pcmPrepare (pcm_id : String) (direction : Int)
  | pcmTrigger (pcm_id : String) (direction : Int) (cmd : TrigCmd)
deriving Repr, DecidableEq

/-- Frontend environment: results of the local platform calls made before
any message is sent (skl_platform_open, skl_platform_pcm_trigger), the
transport status of vfe_send_msg, and the backend status returned in
vbe_result.ret for each command. -/
structure FeEnv where
  platformOpenRet : Int
  platformTriggerRet : Int
  sendMsgRet : Int
  vbeOpenRet : Int
  vbeCloseRet : Int
  vbeHwParamsRet : Int
  vbePrepareRet : Int

/-- vfe_find_substream_info_by_pcm: first list entry matching direction and
pcm id. -/
def vfe_find_substream_info_by_pcm :
    List FeSubstream → String → Int → Option FeSubstream
  | [], _, _ => none
  | s :: rest, p, d =>
    if s.direction = d ∧ s.pcm_id = p then some s
    else vfe_find_substream_info_by_pcm rest p d

/-- Update of the open flag on the first matching list entry (the
substr_info->open writes in vfe_pcm_open / vfe_pcm_close). -/
def setOpenFlag : List FeSubstream → String → Int → Bool → List FeSubstream
  | [], _, _, _ => []
  | s :: rest, p, d, b =>
    if s.direction = d ∧ s.pcm_id = p then { s with opened := b } :: rest
    else s :: setOpenFlag rest p d b

/-- Update of the running flag on the first matching list entry (the
substr_info->running write in vfe_pcm_trigger). -/
def setRunningFlag : List FeSubstream → String → Int → Bool → List FeSubstream
  | [], _, _, _ => []
  | s :: rest, p, d, b =>
    if s.direction = d ∧ s.pcm_id = p then { s with running := b } :: rest
    else s :: setRunningFlag rest p d b

/-- Zeroing of the three position-descriptor fields done by vfe_pcm_prepare
before sending the dma configuration. -/
def resetPosDesc : List FeSubstream → String → Int → List FeSubstream
  | [], _, _ => []
  | s :: rest, p, d =>
    if s.direction = d ∧ s.pcm_id = p then
      { s with pos_desc := s.pos_desc.map (fun _ => ⟨0, 0, 0⟩) } :: rest
    else s :: resetPosDesc rest p d

/-- skl-virtio-fe.c, vfe_pcm_open: calls skl_platform_open first and
propagates its failure; returns 0 immediately for a substream not
associated with a valid PCM (no message, no state change); otherwise sends
the Open request, propagates a transport failure, then the backend status;
on backend success the local session (when found) has its open flag set.
Returns (status, new list, messages sent). -/
def vfe_pcm_open (env : FeEnv) (st : List FeSubstream) (pcm_id : String)
    (direction : Int) : Int × List FeSubstream × List FeMsg :=
  if env.platformOpenRet < 0 then (env.platformOpenRet, st, [])
  else if vfe_is_valid_pcm_id pcm_id ≠ 0 then (0, st, [])
  else
    let msgs := [FeMsg.pcmOpen pcm_id direction]
    if env.sendMsgRet < 0 then (env.sendMsgRet, st, msgs)
    else if env.vbeOpenRet < 0 then (env.vbeOpenRet, st, msgs)
    else (env.vbeOpenRet, setOpenFlag st pcm_id direction true, msgs)

/-- skl-virtio-fe.c, vfe_pcm_close: returns 0 immediately for a substream
not associated with a valid PCM; otherwise clears the local open flag,
sends the Close request, propagates a transport failure and then the
backend status. -/
def vfe_pcm_close (env : FeEnv) (st : List FeSubstream) (pcm_id : String)
    (direction : Int) : Int × List FeSubstream × List FeMsg :=
  if vfe_is_valid_pcm_id pcm_id ≠ 0 then (0, st, [])
  else
    let st1 := setOpenFlag st pcm_id direction false
    let msgs := [FeMsg.pcmClose pcm_id direction]
    if env.sendMsgRet < 0 then (env.sendMsgRet, st1, msgs)
    else (env.vbeCloseRet, st1, msgs)

/-- skl-virtio-fe.c, vfe_pcm_hw_params: returns 0 immediately for a
substream not associated with a valid PCM; otherwise sends the assembled
hardware parameters and propagates the transport then backend status.  No
local session state is modified. -/
def vfe_pcm_hw_params (env : FeEnv) (st : List FeSubstream) (pcm_id : String)
    (direction : Int) : Int × List FeSubstream × List FeMsg :=
  if vfe_is_valid_pcm_id pcm_id ≠ 0 then (0, st, [])
  else
    let msgs := [FeMsg.pcmHwParams pcm_id direction]
    if env.sendMsgRet < 0 then (env.sendMsgRet, st, msgs)
    else (env.vbeHwParamsRet, st, msgs)

/-- skl-virtio-fe.c, vfe_pcm_trigger: calls skl_platform_pcm_trigger first
and propagates its failure; returns 0 immediately for a substream not
associated with a valid PCM; otherwise records whether the command puts
the stream in the running state and sends the Trigger request, returning
the transport status directly. -/
def vfe_pcm_trigger (env : FeEnv) (st : List FeSubstream) (pcm_id : String)
    (direction : Int) (cmd : TrigCmd) : Int × List FeSubstream × List FeMsg :=
  if env.platformTriggerRet < 0 then (env.platformTriggerRet, st, [])
  else if vfe_is_valid_pcm_id pcm_id ≠ 0 then (0, st, [])
  else
    let st1 := setRunningFlag st pcm_id direction (vfe_is_stream_running cmd)
    (env.sendMsgRet, st1, [FeMsg.pcmTrigger pcm_id direction cmd])

/-- skl-virtio-fe.c, vfe_pcm_prepare: looks the session up, returns 0
immediately for a substream not associated with a valid PCM, -EINVAL when
no session record exists; otherwise zeroes the shared position descriptor,
sends the dma configuration and propagates the transport then backend
status. -/
def vfe_pcm_prepare (env : FeEnv) (st : List FeSubstream) (pcm_id : String)
    (direction : Int) : Int × List FeSubstream × List FeMsg :=
  if vfe_is_valid_pcm_id pcm_id ≠ 0 then (0, st, [])
  else
    match vfe_find_substream_info_by_pcm st pcm_id direction with
    | none => (-EINVAL, st, [])
    | some _ =>
      let st1 := resetPosDesc st pcm_id direction
      let msgs := [FeMsg.pcmPrepare pcm_id direction]
      if env.sendMsgRet < 0 then (env.sendMsgRet, st1, msgs)
      else (env.vbePrepareRet, st1, msgs)

/-- C10: every frontend PCM callback invoked on a substream whose pcm id is
empty or the "((null))" sentinel returns 0 without sending any message to
the backend and without modifying any session state, provided the
preceding local platform call (when the callback makes one) succeeded. -/
theorem C10_invalid_pcm_id_callbacks (env : FeEnv) (st : List FeSubstream)
    (pcm_id : String) (direction : Int) (cmd : TrigCmd)
    (hid : pcm_id = "" ∨ pcm_id = "((null))")
    (hpo : 0 ≤ env.platformOpenRet) (hpt : 0 ≤ env.platformTriggerRet) :
    vfe_pcm_open env st pcm_id direction = (0, st, [])
    ∧ vfe_pcm_close env st pcm_id direction = (0, st, [])
    ∧ vfe_pcm_hw_params env st pcm_id direction = (0, st, [])
    ∧ vfe_pcm_trigger env st pcm_id direction cmd = (0, st, [])
    ∧ vfe_pcm_prepare env st pcm_id direction = (0, st, []) := by
  have hinv : vfe_is_valid_pcm_id pcm_id ≠ 0 := by
    cases hid with
    | inl h => simp [vfe_is_valid_pcm_id, h, EINVAL]
    | inr h => simp [vfe_is_valid_pcm_id, h, EINVAL]
  have hpo2 : ¬ env.platformOpenRet < 0 := not_lt.mpr hpo
  have hpt2 : ¬ env.platformTriggerRet < 0 := not_lt.mpr hpt
  exact ⟨by simp [vfe_pcm_open, hpo2, hinv],
    by simp [vfe_pcm_close, hinv],
    by simp [vfe_pcm_hw_params, hinv],
    by simp [vfe_pcm_trigger, hpt2, hinv],
    by simp [vfe_pcm_prepare, hinv]⟩

/-- Sample frontend environment with all collaborators succeeding. -/
def feEnv0 : FeEnv :=
  { platformOpenRet := 0, platformTriggerRet := 0, sendMsgRet := 0,
    vbeOpenRet := 0, vbeCloseRet := 0, vbeHwParamsRet := 0, vbePrepareRet := 0 }

theorem C10_witness :
    (vfe_pcm_open feEnv0 [fes0] "((null))" 0 = (0, [fes0], [])
      ∧ vfe_pcm_prepare feEnv0 [fes0] "((null))" 0 = (0, [fes0], [])) :=
  ⟨(C10_invalid_pcm_id_callbacks feEnv0 [fes0] "((null))" 0 TrigCmd.start
      (Or.inr rfl) (by decide) (by decide)).1,
    (C10_invalid_pcm_id_callbacks feEnv0 [fes0] "((null))" 0 TrigCmd.start
      (Or.inr rfl) (by decide) (by decide)).2.2.2.2⟩

end SklVirtio
